import Mathlib

/-!
Verification of libdatachannel components against their specification.

The definitions below are shallow embeddings of the C++ sources:
  - `src/impl/queue.hpp`        (template class `rtc::impl::Queue<T>`)
  - `src/capi.cpp`              (flat C ABI adapter)
  - `include/rtc/utils.hpp`     (`synchronized_stored_callback`)
  - `src/impl/sctptransport.hpp` (`SctpTransport::PayloadId`)
  - `src/impl/websocket.cpp`    (`WebSocket::outgoing`)

Machine integers of type `size_t` are modelled as `Nat` with explicit
reduction modulo `2 ^ 64`; `int` is modelled as `Int`.
-/

namespace Rtc

/-- Modulus of `size_t` arithmetic (64-bit platforms). -/
def SIZE_T_MOD : Nat := 2 ^ 64

/-!
## Queue (src/impl/queue.hpp)

The C++ class holds `mLimit` (construction-time constant), `mAmount`
(a `size_t` running total), `mQueue` (FIFO of elements), `mStopping`,
and `mAmountFunction` (defaulting to the constant-1 function when the
constructor receives `nullptr`).  Blocking calls are modelled by their
state effect: a call whose wait predicate is false leaves the state
unchanged (it has not returned yet).
-/

structure Queue (α : Type) where
  mLimit : Nat
  mAmount : Nat
  mQueue : List α
  mStopping : Bool
  mAmountFunction : α → Nat

/-- Constructor `Queue(size_t limit = 0, amount_function func = nullptr)`:
`mAmount` starts at 0, the queue empty, and a null `func` is replaced by
the constant-1 function.  The `% SIZE_T_MOD` wrap reflects that
`amount_function` returns `size_t` in the source. -/
def Queue.init (α : Type) (limit : Nat) (func : Option (α → Nat)) : Queue α :=
  { mLimit := limit
    mAmount := 0
    mQueue := []
    mStopping := false
    mAmountFunction := fun x => (func.getD (fun _ => 1)) x % SIZE_T_MOD }

/-- `Queue::stop()`: sets `mStopping` (and wakes all waiters). -/
def Queue.stop {α : Type} (q : Queue α) : Queue α :=
  { q with mStopping := true }

/-- `Queue::running()`: `!mQueue.empty() || !mStopping`. -/
def Queue.running {α : Type} (q : Queue α) : Bool :=
  !q.mQueue.isEmpty || !q.mStopping

/-- `Queue::size()`: number of elements. -/
def Queue.size {α : Type} (q : Queue α) : Nat := q.mQueue.length

/-- The wait predicate of `Queue::push`:
`!mLimit || mQueue.size() < mLimit || mStopping`. -/
def Queue.pushWaitPred {α : Type} (q : Queue α) : Bool :=
  (q.mLimit == 0) || (decide (q.mQueue.length < q.mLimit)) || q.mStopping

/-- `Queue::pushImpl`: returns immediately when stopping, otherwise adds
`mAmountFunction(element)` to `mAmount` (`size_t` addition) and appends
the element. -/
def Queue.pushImpl {α : Type} (q : Queue α) (element : α) : Queue α :=
  if q.mStopping then q
  else
    { q with
      mAmount := (q.mAmount + q.mAmountFunction element) % SIZE_T_MOD
      mQueue := q.mQueue ++ [element] }

/-- `Queue::push`: waits until the wait predicate holds, then runs
`pushImpl`.  A push whose wait predicate is false has not returned:
its state effect is the identity. -/
def Queue.push {α : Type} (q : Queue α) (element : α) : Queue α :=
  if q.pushWaitPred then q.pushImpl element else q

/-- `Queue::popImpl`: returns `none` on an empty queue, otherwise
subtracts `mAmountFunction(front)` from `mAmount` (`size_t`
subtraction, wrapping) and removes the front element. -/
def Queue.popImpl {α : Type} (q : Queue α) : Option α × Queue α :=
  match q.mQueue with
  | [] => (none, q)
  | x :: rest =>
      (some x,
       { q with
         mAmount := (q.mAmount + (SIZE_T_MOD - q.mAmountFunction x % SIZE_T_MOD)) % SIZE_T_MOD
         mQueue := rest })

/-- `Queue::pop`: waits until non-empty or stopping, then runs `popImpl`.
Its state effect is that of `popImpl`. -/
def Queue.pop {α : Type} (q : Queue α) : Option α × Queue α := q.popImpl

/-- `Queue::tryPop`: runs `popImpl` without waiting. -/
def Queue.tryPop {α : Type} (q : Queue α) : Option α × Queue α := q.popImpl

/-- `Queue::peek`: front element if any; no state change. -/
def Queue.peek {α : Type} (q : Queue α) : Option α := q.mQueue.head?

/-- `Queue::exchange`: `none` on an empty queue, otherwise swaps the front
element with the argument.  Note the source does not touch `mAmount`. -/
def Queue.exchange {α : Type} (q : Queue α) (element : α) : Option α × Queue α :=
  match q.mQueue with
  | [] => (none, q)
  | x :: rest => (some x, { q with mQueue := element :: rest })

/-- The operations of the queue interface, for reasoning about operation
sequences. -/
inductive QueueOp (α : Type) where
  | push (x : α)
  | pop
  | tryPop
  | peek
  | exchange (x : α)
  | stop
deriving DecidableEq

def QueueOp.isExchange {α : Type} : QueueOp α → Bool
  | .exchange _ => true
  | _ => false

/-- State effect of one operation. -/
def Queue.applyOp {α : Type} (q : Queue α) : QueueOp α → Queue α
  | .push x => q.push x
  | .pop => q.pop.2
  | .tryPop => q.tryPop.2
  | .peek => q
  | .exchange x => (q.exchange x).2
  | .stop => q.stop

/-- State after a sequence of operations. -/
def Queue.runOps {α : Type} (q : Queue α) (ops : List (QueueOp α)) : Queue α :=
  ops.foldl Queue.applyOp q

/-- Sum of `mAmountFunction` over the current elements. -/
def Queue.sumAmount {α : Type} (q : Queue α) : Nat :=
  (q.mQueue.map q.mAmountFunction).sum

/-- The amount invariant: `mAmount` is the sum of the element amounts,
reduced modulo `2 ^ 64` as `size_t` arithmetic dictates. -/
def Queue.AmountInvariant {α : Type} (q : Queue α) : Prop :=
  q.mAmount = q.sumAmount % SIZE_T_MOD

/-- Amount functions produce `size_t` values. -/
def Queue.WellFormed {α : Type} (q : Queue α) : Prop :=
  ∀ x, q.mAmountFunction x < SIZE_T_MOD

lemma size_t_mod_pos : 0 < SIZE_T_MOD := by
  unfold SIZE_T_MOD
  positivity

lemma Queue.init_wellFormed (α : Type) (limit : Nat) (func : Option (α → Nat)) :
    (Queue.init α limit func).WellFormed := by
  intro x
  exact Nat.mod_lt _ size_t_mod_pos

lemma Queue.applyOp_amountFunction {α : Type} (q : Queue α) (op : QueueOp α) :
    (q.applyOp op).mAmountFunction = q.mAmountFunction := by
  cases op with
  | push x =>
      simp only [Queue.applyOp, Queue.push, Queue.pushImpl]
      repeat' split
      all_goals rfl
  | pop =>
      simp only [Queue.applyOp, Queue.pop]
      unfold Queue.popImpl
      cases q.mQueue <;> rfl
  | tryPop =>
      simp only [Queue.applyOp, Queue.tryPop]
      unfold Queue.popImpl
      cases q.mQueue <;> rfl
  | peek => rfl
  | exchange x =>
      simp only [Queue.applyOp]
      unfold Queue.exchange
      cases q.mQueue <;> rfl
  | stop => rfl

lemma Queue.pushImpl_invariant {α : Type} (q : Queue α) (x : α)
    (hi : q.AmountInvariant) :
    (q.pushImpl x).AmountInvariant := by
  unfold Queue.pushImpl
  split
  · exact hi
  · unfold Queue.AmountInvariant Queue.sumAmount at hi ⊢
    simp only [List.map_append, List.map_cons, List.map_nil, List.sum_append,
      List.sum_cons, List.sum_nil, Nat.add_zero]
    rw [hi, Nat.mod_add_mod]

lemma Queue.popImpl_invariant {α : Type} (q : Queue α)
    (hw : q.WellFormed) (hi : q.AmountInvariant) :
    q.popImpl.2.AmountInvariant := by
  unfold Queue.popImpl
  rcases hq : q.mQueue with _ | ⟨x, rest⟩
  · exact hi
  · unfold Queue.AmountInvariant Queue.sumAmount at hi ⊢
    simp only [hq, List.map_cons, List.sum_cons] at hi ⊢
    have hx : q.mAmountFunction x < SIZE_T_MOD := hw x
    rw [hi, Nat.mod_add_mod]
    have harith : q.mAmountFunction x + (rest.map q.mAmountFunction).sum +
        (SIZE_T_MOD - q.mAmountFunction x % SIZE_T_MOD) =
        (rest.map q.mAmountFunction).sum + SIZE_T_MOD := by
      rw [Nat.mod_eq_of_lt hx]
      omega
    rw [harith]
    exact Nat.add_mod_right _ _

lemma Queue.applyOp_invariant {α : Type} (q : Queue α) (op : QueueOp α)
    (hw : q.WellFormed) (hi : q.AmountInvariant) (hop : op.isExchange = false) :
    (q.applyOp op).AmountInvariant := by
  cases op with
  | push x =>
      simp only [Queue.applyOp, Queue.push]
      split
      · exact q.pushImpl_invariant x hi
      · exact hi
  | pop =>
      simp only [Queue.applyOp, Queue.pop]
      exact q.popImpl_invariant hw hi
  | tryPop =>
      simp only [Queue.applyOp, Queue.tryPop]
      exact q.popImpl_invariant hw hi
  | peek => exact hi
  | exchange x => simp [QueueOp.isExchange] at hop
  | stop => exact hi

lemma Queue.applyOp_wellFormed {α : Type} (q : Queue α) (op : QueueOp α)
    (hw : q.WellFormed) : (q.applyOp op).WellFormed := by
  intro x
  rw [q.applyOp_amountFunction op]
  exact hw x

lemma Queue.runOps_invariant {α : Type} (ops : List (QueueOp α)) (q : Queue α)
    (hw : q.WellFormed) (hi : q.AmountInvariant)
    (hops : ∀ op ∈ ops, op.isExchange = false) :
    (q.runOps ops).AmountInvariant := by
  induction ops generalizing q with
  | nil => exact hi
  | cons op rest ih =>
      have hop : op.isExchange = false := hops op (List.mem_cons_self op rest)
      have hrest : ∀ o ∈ rest, o.isExchange = false :=
        fun o ho => hops o (List.mem_cons_of_mem op ho)
      exact ih (q.applyOp op) (q.applyOp_wellFormed op hw)
        (q.applyOp_invariant op hw hi hop) hrest

/-- The default-amount invariant: with the constant-1 amount function,
`mAmount` tracks the element count (modulo `2 ^ 64`). -/
def Queue.DefaultInvariant {α : Type} (q : Queue α) : Prop :=
  (∀ x, q.mAmountFunction x = 1) ∧ q.mAmount = q.mQueue.length % SIZE_T_MOD

lemma Queue.one_lt_size_t_mod : (1 : Nat) < SIZE_T_MOD := by
  unfold SIZE_T_MOD
  norm_num

lemma Queue.popImpl_defaultAmount {α : Type} (q : Queue α)
    (hfn : ∀ x, q.mAmountFunction x = 1)
    (hi : q.mAmount = q.mQueue.length % SIZE_T_MOD) :
    q.popImpl.2.mAmount = q.popImpl.2.mQueue.length % SIZE_T_MOD := by
  unfold Queue.popImpl
  rcases hq : q.mQueue with _ | ⟨x, rest⟩
  · rw [hi, hq]
  · rw [hq] at hi
    simp only [List.length_cons] at hi
    simp only [hfn, Nat.mod_eq_of_lt Queue.one_lt_size_t_mod]
    rw [hi, Nat.mod_add_mod]
    have harith : rest.length + 1 + (SIZE_T_MOD - 1) = rest.length + SIZE_T_MOD := by
      have := size_t_mod_pos
      omega
    rw [harith]
    exact Nat.add_mod_right _ _

lemma Queue.applyOp_defaultInvariant {α : Type} (q : Queue α) (op : QueueOp α)
    (hd : q.DefaultInvariant) : (q.applyOp op).DefaultInvariant := by
  obtain ⟨hfn, hi⟩ := hd
  refine ⟨?_, ?_⟩
  · intro x
    rw [q.applyOp_amountFunction op]
    exact hfn x
  · cases op with
    | push x =>
        simp only [Queue.applyOp, Queue.push, Queue.pushImpl]
        split
        · split
          · exact hi
          · simp only [List.length_append, List.length_cons, List.length_nil, hfn,
              Nat.zero_add]
            rw [hi, Nat.mod_add_mod]
        · exact hi
    | pop =>
        simp only [Queue.applyOp, Queue.pop]
        exact q.popImpl_defaultAmount hfn hi
    | tryPop =>
        simp only [Queue.applyOp, Queue.tryPop]
        exact q.popImpl_defaultAmount hfn hi
    | peek => exact hi
    | exchange x =>
        simp only [Queue.applyOp]
        unfold Queue.exchange
        rcases hq : q.mQueue with _ | ⟨y, rest⟩
        · rw [hi, hq]
        · rw [hq] at hi
          simp only [List.length_cons] at hi ⊢
          exact hi
    | stop => exact hi

lemma Queue.runOps_defaultInvariant {α : Type} (ops : List (QueueOp α)) (q : Queue α)
    (hd : q.DefaultInvariant) : (q.runOps ops).DefaultInvariant := by
  induction ops generalizing q with
  | nil => exact hd
  | cons op rest ih => exact ih (q.applyOp op) (q.applyOp_defaultInvariant op hd)

lemma Queue.init_invariant (α : Type) (limit : Nat) (func : Option (α → Nat)) :
    (Queue.init α limit func).AmountInvariant := by
  unfold Queue.init Queue.AmountInvariant Queue.sumAmount
  simp

lemma Queue.init_defaultInvariant (α : Type) (limit : Nat) :
    (Queue.init α limit none).DefaultInvariant := by
  constructor
  · intro x
    unfold Queue.init
    simp only [Option.getD_none]
    have : (1 : Nat) < SIZE_T_MOD := by unfold SIZE_T_MOD; norm_num
    exact Nat.mod_eq_of_lt this
  · unfold Queue.init
    simp

/-! ### Claim C1 -/

/-- A queue with limit 1 whose amount function is the identity: a witness
that the wait predicate of `push` counts elements, not amounts. -/
def c1CexQueue : Queue Nat := Queue.init Nat 1 (some (fun n => n))

/-- C1, counterexample: the claim says `push(x)` blocks while
`amount + amountFn(x) > limit` unless stopped.  On a fresh queue with
limit 1 and identity amount function, pushing 5 has
`amount + amountFn(5) = 5 > 1` and the queue is not stopped, yet the
source wait predicate (`!mLimit || mQueue.size() < mLimit || mStopping`)
is already true and the push returns immediately, enqueuing the element. -/
theorem queue_push_amount_claim_cex :
    c1CexQueue.mAmount + c1CexQueue.mAmountFunction 5 > c1CexQueue.mLimit ∧
    c1CexQueue.mStopping = false ∧
    c1CexQueue.pushWaitPred = true ∧
    (c1CexQueue.push 5).mQueue = [5] := by
  refine ⟨by decide, by decide, by decide, by decide⟩

/-- C1 (amended): for every queue with a nonzero limit, `push(x)` blocks
while the element count is at least the limit unless the queue is
stopped; it is insensitive to `amount` and to `amountFn(x)`.  Once the
wait predicate holds, a push on a non-stopped queue appends the element
and adds `amountFn(x)` to the amount (`size_t` arithmetic); a push on a
stopped queue returns without changing the queue; a push whose wait
predicate is false has not returned and has no effect. -/
theorem queue_push_count_bound {α : Type} (q : Queue α) (x : α)
    (hL : q.mLimit ≠ 0) :
    (q.pushWaitPred = true ↔ (q.mQueue.length < q.mLimit ∨ q.mStopping = true)) ∧
    (q.pushWaitPred = true → q.mStopping = false →
      (q.push x).mQueue = q.mQueue ++ [x] ∧
      (q.push x).mAmount = (q.mAmount + q.mAmountFunction x) % SIZE_T_MOD) ∧
    (q.mStopping = true → q.push x = q) ∧
    (q.pushWaitPred = false → q.push x = q) := by
  refine ⟨?_, ?_, ?_, ?_⟩
  · simp [Queue.pushWaitPred, hL]
  · intro h1 h2
    simp [Queue.push, h1, Queue.pushImpl, h2]
  · intro h
    simp [Queue.push, Queue.pushWaitPred, Queue.pushImpl, h]
  · intro h
    simp [Queue.push, h]

/-- Concrete queue for the C1 witness: limit 2, default amount function. -/
def c1WitnessQueue : Queue Nat := Queue.init Nat 2 none

/-- C1 witness: the amended theorem applied to a concrete queue. -/
theorem queue_push_count_bound_witness :
    c1WitnessQueue.mLimit ≠ 0 ∧
    ((c1WitnessQueue.pushWaitPred = true ↔
        (c1WitnessQueue.mQueue.length < c1WitnessQueue.mLimit ∨
         c1WitnessQueue.mStopping = true)) ∧
     (c1WitnessQueue.pushWaitPred = true → c1WitnessQueue.mStopping = false →
       (c1WitnessQueue.push 4).mQueue = c1WitnessQueue.mQueue ++ [4] ∧
       (c1WitnessQueue.push 4).mAmount =
         (c1WitnessQueue.mAmount + c1WitnessQueue.mAmountFunction 4) % SIZE_T_MOD) ∧
     (c1WitnessQueue.mStopping = true → c1WitnessQueue.push 4 = c1WitnessQueue) ∧
     (c1WitnessQueue.pushWaitPred = false → c1WitnessQueue.push 4 = c1WitnessQueue)) :=
  ⟨by decide, queue_push_count_bound c1WitnessQueue 4 (by decide)⟩

/-! ### Claim C2 -/

/-- C2 (amended): for every queue and every operation sequence not
containing `exchange`, `amount()` equals the sum of `amountFn` over the
current elements reduced modulo `2 ^ 64` (`size_t` arithmetic); and
with the default amount function (constantly 1), `amount()` equals
`size()` modulo `2 ^ 64` under every operation sequence, `exchange`
included.  `exchange` must be excluded in the general case because it
swaps the front element without adjusting `mAmount`. -/
theorem queue_amount_invariant (α : Type) (limit : Nat)
    (func : Option (α → Nat)) (ops : List (QueueOp α)) :
    ((∀ op ∈ ops, op.isExchange = false) →
      ((Queue.init α limit func).runOps ops).AmountInvariant) ∧
    (((Queue.init α limit none).runOps ops).mAmount =
      ((Queue.init α limit none).runOps ops).mQueue.length % SIZE_T_MOD) := by
  constructor
  · intro hops
    exact Queue.runOps_invariant ops _ (Queue.init_wellFormed α limit func)
      (Queue.init_invariant α limit func) hops
  · exact (Queue.runOps_defaultInvariant ops _ (Queue.init_defaultInvariant α limit)).2

/-- Concrete operation sequence for the C2 witness. -/
def c2WitnessOps : List (QueueOp Nat) :=
  [QueueOp.push 2, QueueOp.push 3, QueueOp.pop, QueueOp.stop, QueueOp.push 4,
   QueueOp.tryPop, QueueOp.peek]

/-- C2 witness: the amended invariant at a concrete queue and sequence. -/
theorem queue_amount_invariant_witness :
    (∀ op ∈ c2WitnessOps, op.isExchange = false) ∧
    ((Queue.init Nat 3 (some (fun n => n))).runOps c2WitnessOps).AmountInvariant :=
  ⟨by decide, (queue_amount_invariant Nat 3 (some (fun n => n)) c2WitnessOps).1 (by decide)⟩

/-- Queue obtained by pushing 5 then exchanging the head for 3, with the
identity amount function. -/
def c2CexQueue : Queue Nat := ((Queue.init Nat 0 (some (fun n => n))).push 5).exchange 3 |>.2

/-- C2, counterexample: after `push 5; exchange 3` with `amountFn = id`,
the queue holds `[3]` but `amount()` still reports 5, because
`Queue::exchange` swaps the front element without adjusting `mAmount`.
The claimed invariant fails on this operation sequence. -/
theorem queue_amount_invariant_cex :
    c2CexQueue.mQueue = [3] ∧
    c2CexQueue.mAmount = 5 ∧
    c2CexQueue.sumAmount = 3 ∧
    ¬ c2CexQueue.AmountInvariant := by
  refine ⟨by decide, by decide, by decide, ?_⟩
  unfold Queue.AmountInvariant
  decide

/-! ### Claim C10 -/

/-- C10: once `stop()` has been called, `push` no longer blocks (the wait
predicate is true) and leaves the queue unchanged; `pop` and `tryPop`
still drain the previously enqueued elements front-first and return
`none` on an empty queue; `running()` is true exactly while elements
remain. -/
theorem queue_after_stop {α : Type} (q : Queue α) (x : α)
    (h : q.mStopping = true) :
    q.pushWaitPred = true ∧
    q.push x = q ∧
    q.pop.1 = q.mQueue.head? ∧
    q.pop.2.mQueue = q.mQueue.tail ∧
    q.tryPop.1 = q.mQueue.head? ∧
    q.tryPop.2.mQueue = q.mQueue.tail ∧
    (q.mQueue = [] → q.pop = (none, q) ∧ q.tryPop = (none, q)) ∧
    q.running = !q.mQueue.isEmpty := by
  refine ⟨?_, ?_, ?_, ?_, ?_, ?_, ?_, ?_⟩
  · simp [Queue.pushWaitPred, h]
  · simp [Queue.push, Queue.pushWaitPred, Queue.pushImpl, h]
  · unfold Queue.pop Queue.popImpl
    cases hq : q.mQueue <;> simp [hq]
  · unfold Queue.pop Queue.popImpl
    cases hq : q.mQueue <;> simp [hq]
  · unfold Queue.tryPop Queue.popImpl
    cases hq : q.mQueue <;> simp [hq]
  · unfold Queue.tryPop Queue.popImpl
    cases hq : q.mQueue <;> simp [hq]
  · intro hq
    unfold Queue.pop Queue.tryPop Queue.popImpl
    rw [hq]
    exact ⟨rfl, rfl⟩
  · simp [Queue.running, h]

/-- Concrete stopped queue for the C10 witness: elements 7 and 8 were
enqueued before the stop. -/
def c10WitnessQueue : Queue Nat :=
  Queue.stop (((Queue.init Nat 0 none).push 7).push 8)

/-- C10 witness: the theorem applied to a concrete stopped queue. -/
theorem queue_after_stop_witness :
    c10WitnessQueue.mStopping = true ∧
    (c10WitnessQueue.pushWaitPred = true ∧
     c10WitnessQueue.push 9 = c10WitnessQueue ∧
     c10WitnessQueue.pop.1 = c10WitnessQueue.mQueue.head? ∧
     c10WitnessQueue.pop.2.mQueue = c10WitnessQueue.mQueue.tail ∧
     c10WitnessQueue.tryPop.1 = c10WitnessQueue.mQueue.head? ∧
     c10WitnessQueue.tryPop.2.mQueue = c10WitnessQueue.mQueue.tail ∧
     (c10WitnessQueue.mQueue = [] →
       c10WitnessQueue.pop = (none, c10WitnessQueue) ∧
       c10WitnessQueue.tryPop = (none, c10WitnessQueue)) ∧
     c10WitnessQueue.running = !c10WitnessQueue.mQueue.isEmpty) :=
  ⟨by decide, queue_after_stop c10WitnessQueue 9 (by decide)⟩

/-!
## C ABI adapter (src/capi.cpp)

Return codes from `rtc.h`, and the buffer-copy helpers `copyAndReturn`.
A caller-supplied buffer is modelled by whether its pointer is null and
by its declared capacity; what the helper writes is modelled by a
`copied` flag.  `int` is modelled as `Int`.
-/

def RTC_ERR_SUCCESS : Int := 0
def RTC_ERR_INVALID : Int := -1
def RTC_ERR_FAILURE : Int := -2
def RTC_ERR_NOT_AVAIL : Int := -3
def RTC_ERR_TOO_SMALL : Int := -4

/-- Result of a `copyAndReturn` call: the returned `int` and whether the
value was copied into the caller's buffer. -/
structure CopyResult where
  ret : Int
  copied : Bool
deriving DecidableEq

/-- `copyAndReturn(string s, char *buffer, int size)`: a null buffer
returns the required size `s.size() + 1`; a non-null buffer smaller than
that returns `RTC_ERR_TOO_SMALL`; otherwise the string plus the null
terminator is copied and the required size returned. -/
def copyAndReturnString (s : String) (bufferIsNull : Bool) (size : Int) : CopyResult :=
  if bufferIsNull then { ret := (s.length : Int) + 1, copied := false }
  else if size < (s.length : Int) + 1 then { ret := RTC_ERR_TOO_SMALL, copied := false }
  else { ret := (s.length : Int) + 1, copied := true }

/-- `copyAndReturn(binary b, char *buffer, int size)`: same convention
without a terminator; `b` is modelled by its byte count. -/
def copyAndReturnBinary (b : Nat) (bufferIsNull : Bool) (size : Int) : CopyResult :=
  if bufferIsNull then { ret := (b : Int), copied := false }
  else if size < (b : Int) then { ret := RTC_ERR_TOO_SMALL, copied := false }
  else { ret := (b : Int), copied := true }

/-! ### Claim C4 -/

/-- C4, counterexample: the claim says a call with `size == 0` returns the
required size rather than copying or reporting an error.  For the
one-character string with a non-null buffer and `size = 0`, the source
returns `RTC_ERR_TOO_SMALL`: the size-query convention keys on a null
buffer pointer, not on `size == 0`. -/
theorem copyAndReturn_size_zero_cex :
    copyAndReturnString "a" false 0 = { ret := RTC_ERR_TOO_SMALL, copied := false } ∧
    RTC_ERR_TOO_SMALL ≠ ("a".length : Int) + 1 := by
  refine ⟨by decide, by decide⟩

/-- C4 (amended): a C-ABI buffer copy returns the required size of the
value, copying nothing, exactly when the caller passes a null buffer
pointer (whatever `size` is); with a non-null buffer whose `size` is
smaller than required — in particular `size == 0` for any string, or for
any non-empty binary — it copies nothing and reports `RTC_ERR_TOO_SMALL`. -/
theorem copyAndReturn_null_buffer_queries_size (s : String) (b : Nat) (size : Int) :
    copyAndReturnString s true size = { ret := (s.length : Int) + 1, copied := false } ∧
    copyAndReturnBinary b true size = { ret := (b : Int), copied := false } ∧
    (size < (s.length : Int) + 1 →
      copyAndReturnString s false size = { ret := RTC_ERR_TOO_SMALL, copied := false }) ∧
    (size < (b : Int) →
      copyAndReturnBinary b false size = { ret := RTC_ERR_TOO_SMALL, copied := false }) := by
  refine ⟨?_, ?_, ?_, ?_⟩
  · simp [copyAndReturnString]
  · simp [copyAndReturnBinary]
  · intro h
    simp [copyAndReturnString, h]
  · intro h
    simp [copyAndReturnBinary, h]

/-- C4 witness: the amended theorem at the string "a", a 1-byte binary
and `size = 0`. -/
theorem copyAndReturn_null_buffer_queries_size_witness :
    (0 : Int) < ("a".length : Int) + 1 ∧
    copyAndReturnString "a" false 0 = { ret := RTC_ERR_TOO_SMALL, copied := false } :=
  ⟨by decide, (copyAndReturn_null_buffer_queries_size "a" 1 0).2.2.1 (by decide)⟩

/-! ### Claim C5 -/

/-- The size argument passed to the user's message callback for a string
message: `-int(s.size() + 1)` in `rtcSetMessageCallback`. -/
def rtcMessageCallbackStringSize (s : String) : Int := -((s.length : Int) + 1)

/-- String branch of `rtcReceiveMessage(id, buffer, size)`: `*size` is
first replaced by its absolute value, the string is copied via
`copyAndReturn`, and on any outcome `*size` is set to a negative value.
Returns `(return code, *size on exit)`. -/
def rtcReceiveMessageString (s : String) (bufferIsNull : Bool) (sizeIn : Int) :
    Int × Int :=
  if 0 ≤ (copyAndReturnString s bufferIsNull (sizeIn.natAbs : Int)).ret then
    (RTC_ERR_SUCCESS, -(copyAndReturnString s bufferIsNull (sizeIn.natAbs : Int)).ret)
  else
    ((copyAndReturnString s bufferIsNull (sizeIn.natAbs : Int)).ret,
     -((s.length : Int) + 1))

/-- `copyAndReturn` on a string returns either the required size or
`RTC_ERR_TOO_SMALL`. -/
lemma copyAndReturnString_ret (s : String) (b : Bool) (sz : Int) :
    (copyAndReturnString s b sz).ret = (s.length : Int) + 1 ∨
    (copyAndReturnString s b sz).ret = RTC_ERR_TOO_SMALL := by
  unfold copyAndReturnString
  split
  · exact Or.inl rfl
  · split
    · exact Or.inr rfl
    · exact Or.inl rfl

/-- C5, counterexample: the claim says the absolute value of the reported
size is the string's length excluding the null terminator.  For "hi"
(length 2) the callback receives size `-3`: the terminator is included. -/
theorem string_size_report_cex :
    rtcMessageCallbackStringSize "hi" = -3 ∧
    ¬ (rtcMessageCallbackStringSize "hi").natAbs = "hi".length := by
  refine ⟨by decide, by decide⟩

/-- C5 (amended): whenever a string message is delivered through the C
ABI — by the callback installed via `rtcSetMessageCallback` or by
`rtcReceiveMessage` — the size reported to the caller is negative and
its absolute value is the string's length plus one, i.e. including the
null terminator. -/
theorem string_size_report_negative (s : String) (bufferIsNull : Bool) (sizeIn : Int) :
    rtcMessageCallbackStringSize s < 0 ∧
    (rtcMessageCallbackStringSize s).natAbs = s.length + 1 ∧
    (rtcReceiveMessageString s bufferIsNull sizeIn).2 < 0 ∧
    ((rtcReceiveMessageString s bufferIsNull sizeIn).2).natAbs = s.length + 1 := by
  have hsize : (rtcReceiveMessageString s bufferIsNull sizeIn).2 = -((s.length : Int) + 1) := by
    unfold rtcReceiveMessageString
    rcases copyAndReturnString_ret s bufferIsNull (sizeIn.natAbs : Int) with h | h
    · rw [h, if_pos (by positivity)]
    · rw [h]
      rw [if_neg (by norm_num [RTC_ERR_TOO_SMALL])]
  refine ⟨?_, ?_, ?_, ?_⟩
  · unfold rtcMessageCallbackStringSize
    omega
  · unfold rtcMessageCallbackStringSize
    omega
  · rw [hsize]
    omega
  · rw [hsize]
    omega

/-! ### Claim C3 -/

/-- The two state-change callback slots of a peer connection that the
claim is about; `κ` stands for the type of installed callbacks. -/
structure PeerConnectionCallbacks (κ : Type) where
  onGatheringStateChange : Option κ
  onSignalingStateChange : Option κ
deriving DecidableEq

/-- `rtcSetGatheringStateChangeCallback`: installs the wrapped callback
into the gathering-state slot when non-null, clears that slot when
null. -/
def rtcSetGatheringStateChangeCallback {κ : Type} (cb : Option κ)
    (pc : PeerConnectionCallbacks κ) : PeerConnectionCallbacks κ :=
  match cb with
  | some f => { pc with onGatheringStateChange := some f }
  | none => { pc with onGatheringStateChange := none }

/-- `rtcSetSignalingStateChangeCallback`: installs the wrapped callback
into the signaling-state slot when non-null; when null, the source
calls `peerConnection->onGatheringStateChange(nullptr)` (capi.cpp,
null branch), clearing the gathering-state slot instead of the
signaling-state slot. -/
def rtcSetSignalingStateChangeCallback {κ : Type} (cb : Option κ)
    (pc : PeerConnectionCallbacks κ) : PeerConnectionCallbacks κ :=
  match cb with
  | some f => { pc with onSignalingStateChange := some f }
  | none => { pc with onGatheringStateChange := none }

/-- C3, failing input: with both slots occupied, calling
`rtcSetSignalingStateChangeCallback` with a null callback clears the
gathering-state slot and leaves the signaling-state slot installed —
the opposite of governing its own slot. -/
theorem signaling_callback_clears_gathering_slot :
    (rtcSetSignalingStateChangeCallback (none : Option Nat)
        { onGatheringStateChange := some 1, onSignalingStateChange := some 2 }) =
      { onGatheringStateChange := none, onSignalingStateChange := some 2 } ∧
    (rtcSetSignalingStateChangeCallback (some (3 : Nat))
        { onGatheringStateChange := some 1, onSignalingStateChange := some 2 }) =
      { onGatheringStateChange := some 1, onSignalingStateChange := some 3 } := by
  refine ⟨by decide, by decide⟩

/-! ### Claim C6 -/

/-- Codec selector of `rtcAddTrackEx` (`rtcCodec` values used by the
dispatch; every other value reaches the default branch). -/
inductive RtcCodec where
  | h264
  | vp8
  | vp9
  | opus
  | pcmu
  | pcma
  | other
deriving DecidableEq

/-- Which codec-registration call `rtcAddTrackEx` performs on the media
description it builds.  `vp9Codec` is modelled from the spec: a
conformant VP9 registration (rtpmap `VP9/90000`); the source has no
path that produces it. -/
inductive CodecRegistration where
  | h264Codec
  | vp8Codec
  | vp9Codec
  | opusCodec
  | pcmuCodec
  | pcmaCodec
deriving DecidableEq

/-- The codec dispatch of `rtcAddTrackEx`: `none` models the
`invalid_argument("Unexpected codec")` rejection.  Note the
`RTC_CODEC_VP9` case calls `desc.addVP8Codec(init->payloadType)` in the
source. -/
def rtcAddTrackExRegistration : RtcCodec → Option CodecRegistration
  | .h264 => some .h264Codec
  | .vp8 => some .vp8Codec
  | .vp9 => some .vp8Codec
  | .opus => some .opusCodec
  | .pcmu => some .pcmuCodec
  | .pcma => some .pcmaCodec
  | .other => none

/-- C6: `rtcAddTrackEx` with `RTC_CODEC_VP9` registers the VP8 codec on
the created track's media description — it neither performs a VP9
registration nor rejects the call, aliasing VP9 to VP8 exactly as the
claim forbids. -/
theorem addTrackEx_vp9_aliases_vp8 :
    rtcAddTrackExRegistration .vp9 = some .vp8Codec ∧
    rtcAddTrackExRegistration .vp9 = rtcAddTrackExRegistration .vp8 ∧
    ¬ (rtcAddTrackExRegistration .vp9 = some .vp9Codec ∨
       rtcAddTrackExRegistration .vp9 = none) := by
  refine ⟨by decide, by decide, by decide⟩

/-!
## Synchronized stored callback (include/rtc/utils.hpp)

`synchronized_stored_callback` extends `synchronized_callback` with a
one-slot buffer `stored` for the last call that found no callback
installed.  Calls that dispatch to an installed callback are modelled by
the list of `(callback, argument)` pairs invoked.
-/

structure StoredCallback (κ α : Type) where
  callback : Option κ
  stored : Option α
deriving DecidableEq

/-- `synchronized_stored_callback::call`: if the base call finds no
callback it returns false and the arguments are stored, overwriting any
previous stored tuple; otherwise the installed callback is invoked. -/
def StoredCallback.call {κ α : Type} (s : StoredCallback κ α) (a : α) :
    StoredCallback κ α × List (κ × α) :=
  match s.callback with
  | some f => (s, [(f, a)])
  | none => ({ s with stored := some a }, [])

/-- `synchronized_stored_callback::set`: installs the function, then, if
it is non-null and a stored tuple exists, applies it to the stored
tuple and clears the slot. -/
def StoredCallback.set {κ α : Type} (s : StoredCallback κ α) (func : Option κ) :
    StoredCallback κ α × List (κ × α) :=
  match func, s.stored with
  | some f, some a => ({ callback := some f, stored := none }, [(f, a)])
  | _, _ => ({ s with callback := func }, [])

/-! ### Claim C7 -/

/-- C7: invoking the callback while none is installed stores exactly the
argument of that call (overwriting any earlier missed argument) and
dispatches nothing; installing a non-null callback while the slot is
full dispatches the stored call immediately and clears the slot;
installing any callback while the slot is empty dispatches nothing. -/
theorem stored_callback_replay {κ α : Type} (s : StoredCallback κ α) (a : α)
    (f : κ) (cb : Option κ) :
    (s.callback = none → s.call a = ({ s with stored := some a }, [])) ∧
    (s.stored = some a →
      s.set (some f) = ({ callback := some f, stored := none }, [(f, a)])) ∧
    (s.stored = none → (s.set cb).2 = [] ∧ (s.set cb).1 = { s with callback := cb }) := by
  refine ⟨?_, ?_, ?_⟩
  · intro h
    unfold StoredCallback.call
    rw [h]
  · intro h
    unfold StoredCallback.set
    rw [h]
  · intro h
    unfold StoredCallback.set
    rw [h]
    cases cb <;> exact ⟨rfl, rfl⟩

/-- C7 witness: the theorem applied at concrete states — a miss while the
slot holds 4 overwrites it with 6, and installing callback 9 while the
slot holds 5 dispatches `(9, 5)` and clears the slot. -/
theorem stored_callback_replay_witness :
    ((StoredCallback.mk (none : Option Nat) (some 4)).callback = none ∧
     (StoredCallback.mk (none : Option Nat) (some 4)).call 6 =
       ({ callback := none, stored := some 6 }, [])) ∧
    ((StoredCallback.mk (none : Option Nat) (some 5)).stored = some 5 ∧
     (StoredCallback.mk (none : Option Nat) (some 5)).set (some 9) =
       ({ callback := some 9, stored := none }, [(9, 5)])) :=
  ⟨⟨rfl, (stored_callback_replay (StoredCallback.mk none (some 4)) 6 9 none).1 rfl⟩,
   ⟨rfl, (stored_callback_replay (StoredCallback.mk none (some 5)) 5 9 none).2.1 rfl⟩⟩

/-!
## SCTP payload protocol identifiers (src/impl/sctptransport.hpp)

`enum PayloadId` of `SctpTransport`.  The source names use `PARTIAL`
where the Lean constructors say `Fragment`.
-/

inductive PayloadId where
  | ppidControl
  | ppidString
  | ppidBinaryFragment
  | ppidBinary
  | ppidStringFragment
  | ppidStringEmpty
  | ppidBinaryEmpty
deriving DecidableEq

/-- Numeric values of `SctpTransport::PayloadId`. -/
def PayloadId.val : PayloadId → Nat
  | .ppidControl => 50
  | .ppidString => 51
  | .ppidBinaryFragment => 52
  | .ppidBinary => 53
  | .ppidStringFragment => 54
  | .ppidStringEmpty => 56
  | .ppidBinaryEmpty => 57

/-! ### Claim C8 -/

/-- C8: the SCTP payload protocol identifiers used by `SctpTransport`
are exactly control = 50, string = 51, binary-partial = 52,
binary = 53, string-partial = 54, string-empty = 56,
binary-empty = 57. -/
theorem sctp_ppid_values :
    PayloadId.val .ppidControl = 50 ∧
    PayloadId.val .ppidString = 51 ∧
    PayloadId.val .ppidBinaryFragment = 52 ∧
    PayloadId.val .ppidBinary = 53 ∧
    PayloadId.val .ppidStringFragment = 54 ∧
    PayloadId.val .ppidStringEmpty = 56 ∧
    PayloadId.val .ppidBinaryEmpty = 57 := by
  refine ⟨rfl, rfl, rfl, rfl, rfl, rfl, rfl⟩

/-!
## WebSocket outgoing path (src/impl/websocket.cpp)

`WebSocket::outgoing` throws before handing the message to
`mWsTransport->send` when the socket is not open or the message exceeds
`maxMessageSize()`.  `maxMessageSize()` returns the constant
`DEFAULT_MAX_MESSAGE_SIZE`, which is defined outside the available
sources, so the model carries it as a field.
-/

inductive WsState where
  | Connecting
  | Open
  | Closing
  | Closed
deriving DecidableEq

structure WebSocketModel where
  state : WsState
  hasWsTransport : Bool
  maxMessageSize : Nat
deriving DecidableEq

/-- Outcome of `WebSocket::outgoing`: either the message was handed to
`mWsTransport->send` (with its boolean result) or an exception was
thrown with the given text. -/
inductive WsSendResult where
  | sent (accepted : Bool)
  | thrown (msg : String)
deriving DecidableEq

/-- `WebSocket::outgoing(message)`: throws when not open or without a
transport; throws when the message size exceeds `maxMessageSize()`;
otherwise forwards to the transport (`lowerAccepts` models the
transport's return value). -/
def wsOutgoing (ws : WebSocketModel) (msgSize : Nat) (lowerAccepts : Bool) :
    WsSendResult :=
  if ws.state ≠ WsState.Open ∨ ws.hasWsTransport = false then
    WsSendResult.thrown "WebSocket is not open"
  else if msgSize > ws.maxMessageSize then
    WsSendResult.thrown "Message size exceeds limit"
  else
    WsSendResult.sent lowerAccepts

/-! ### Claim C9 -/

/-- C9: a message strictly larger than `maxMessageSize()` is never handed
to the lower transport — the call throws; and a send on a socket that
is not in the `Open` state throws the not-open error. -/
theorem websocket_outgoing_rejects (ws : WebSocketModel)
    (msgSize : Nat) (lowerAccepts : Bool) :
    (msgSize > ws.maxMessageSize →
      (∀ b, wsOutgoing ws msgSize lowerAccepts ≠ WsSendResult.sent b) ∧
      (∃ e, wsOutgoing ws msgSize lowerAccepts = WsSendResult.thrown e)) ∧
    (ws.state ≠ WsState.Open →
      wsOutgoing ws msgSize lowerAccepts = WsSendResult.thrown "WebSocket is not open") := by
  constructor
  · intro h
    unfold wsOutgoing
    split
    · exact ⟨fun b => by simp, ⟨"WebSocket is not open", rfl⟩⟩
    · exact ⟨fun b => by simp, ⟨"Message size exceeds limit", rfl⟩⟩
  · intro h
    unfold wsOutgoing
    rw [if_pos (Or.inl h)]

/-- C9 witness: an open socket with limit 65536 rejects a 70000-byte
message, and a connecting socket rejects any send. -/
theorem websocket_outgoing_rejects_witness :
    (70000 > (WebSocketModel.mk WsState.Open true 65536).maxMessageSize ∧
     (∀ b, wsOutgoing (WebSocketModel.mk WsState.Open true 65536) 70000 true ≠
        WsSendResult.sent b) ∧
     (∃ e, wsOutgoing (WebSocketModel.mk WsState.Open true 65536) 70000 true =
        WsSendResult.thrown e)) ∧
    ((WebSocketModel.mk WsState.Connecting true 65536).state ≠ WsState.Open ∧
     wsOutgoing (WebSocketModel.mk WsState.Connecting true 65536) 10 true =
       WsSendResult.thrown "WebSocket is not open") :=
  ⟨⟨by decide,
    (websocket_outgoing_rejects (WebSocketModel.mk WsState.Open true 65536)
      70000 true).1 (by decide)⟩,
   ⟨by decide,
    (websocket_outgoing_rejects (WebSocketModel.mk WsState.Connecting true 65536)
      10 true).2 (by decide)⟩⟩

end Rtc
